import Mathlib

/-!
Shallow embedding of the watcher core of `src/auto profiler/autoprofile.py`
(Profile Port Watcher).  Pure data and per-tick transition functions are
translated directly from the Python source; OS effects (win32 calls, psutil,
HTTP requests, background threads) are modelled as per-tick oracle inputs.
-/

namespace AutoProfile

/-- Line 45: `CHECK_INTERVAL = 0.25` (seconds), the fixed poll cadence. -/
def CHECK_INTERVAL : ℚ := 1/4

/-- Line 650: `time.sleep(0.5)` in the `except` branch of the watcher loop. -/
def RECOVERY_SLEEP : ℚ := 1/2

/-- Line 49: `PROFILE_PORTS = {1: "2s", 2: "3s", 3: "4s", 4: "5s"}`; `.get`
on a missing key yields `None`. -/
def PROFILE_PORTS : Nat → Option String
  | 1 => some "2s"
  | 2 => some "3s"
  | 3 => some "4s"
  | 4 => some "5s"
  | _ => none

/-- Line 50: `FALLBACK_PORT = "1s"`. -/
def FALLBACK_PORT : String := "1s"

/-- Python truthiness of an optional string (`None` and `""` are falsy). -/
def truthy : Option String → Bool
  | none => false
  | some s => s != ""

/-- Character-wise ASCII lowercasing, modelling Python `str.lower()` on the
ASCII executable names and paths this program handles. -/
def str_lower (s : String) : String := ⟨s.data.map Char.toLower⟩

/-- Lines 223-229: the per-slot model; the GUI-only icon fields are dropped,
`exe_name` / `exe_path` are the Python attributes (a string or `None`). -/
structure ProfileModel where
  exe_name : Option String
  exe_path : Option String
deriving DecidableEq, Repr

/-- Lines 231-232: `return bool(self.exe_name and self.exe_path)`. -/
def ProfileModel.is_assigned (p : ProfileModel) : Bool :=
  truthy p.exe_name && truthy p.exe_path

/-- Lines 234-236: `self.exe_name = exe_name.lower() if exe_name else None;
self.exe_path = exe_path` (icon extraction, lines 237-244, is GUI-only and
dropped). -/
def ProfileModel.assign (p : ProfileModel) (name path : Option String) :
    ProfileModel :=
  { p with
    exe_name := match name with
      | some s => if s = "" then none else some (str_lower s)
      | none => none
    exe_path := path }

/-- Lines 618-619, the loop-body match condition for one slot:
`pm.is_assigned() and pm.exe_name == fg_exe`. -/
def slot_matches (P : Nat → ProfileModel) (i : Nat) (s : String) : Bool :=
  (P i).is_assigned && ((P i).exe_name == some s)

/-- Lines 617-621: `for idx, pm in self.profiles.items(): ... break`.  The
`profiles` dict is built as `{i: ProfileModel(i) for i in range(1, 5)}`
(line 277) and later updates only replace values at existing keys, so
iteration order is slot 1, 2, 3, 4. -/
def match_slot (P : Nat → ProfileModel) (s : String) : Option Nat :=
  if slot_matches P 1 s then some 1
  else if slot_matches P 2 s then some 2
  else if slot_matches P 3 s then some 3
  else if slot_matches P 4 s then some 4
  else none

/-- Lines 616-621: `selected_port = None; if fg_exe: ...` followed by
`PROFILE_PORTS.get(idx)` at the first matching slot. -/
def selected_port (P : Nat → ProfileModel) (fg : Option String) :
    Option String :=
  match fg with
  | some s => if s = "" then none else (match_slot P s).bind PROFILE_PORTS
  | none => none

/-- Lines 623-641: the dispatch / debounce phase of one iteration.  Returns
the new `last_sent` and the code handed to `send_port_async` (if any). -/
def notify_step (last_sent : Option String) (sel : Option String) :
    Option String × Option String :=
  match sel with
  | some p => if last_sent ≠ some p then (some p, some p) else (last_sent, none)
  | none =>
      if last_sent ≠ some FALLBACK_PORT then
        (some FALLBACK_PORT, some FALLBACK_PORT)
      else (last_sent, none)

/-- Lines 135-143: the POST runs on a daemon thread and any failure there is
caught inside the thread (observed only by logging); the pair records the
dispatched code together with the eventual asynchronous outcome. -/
def send_port_async (ok : Bool) (port : String) : String × Bool := (port, ok)

/-- Lines 292-293 / 583-586: the instance attributes `_last_hwnd` and
`_last_fg_exe` (the resolution cache).  They are set in `__init__` and never
reset by `start_watcher` / `stop_watcher`. -/
structure WatchCache where
  last_hwnd : Option Nat
  last_fg_exe : Option String
deriving DecidableEq, Repr

/-- Lines 588-614: the resolution phase of one iteration.  `hwnd` is the
foreground handle for this tick (`none` models a falsy handle or a raising
`GetForegroundWindow`, lines 577-579); `resolved` is what resolving that
handle would produce (`none` models a missing pid, `AccessDenied`,
`NoSuchProcess` or any error inside lines 592-608).  Returns the new cache,
the `fg_exe` value for this tick, and whether the resolver ran. -/
def cache_step (st : WatchCache) (hwnd : Option Nat)
    (resolved : Option String) : WatchCache × Option String × Bool :=
  match hwnd with
  | some h =>
      if st.last_hwnd = some h then (st, st.last_fg_exe, false)
      else (⟨some h, resolved⟩, resolved, true)
  | none => (⟨none, none⟩, none, false)

/-- One tick's OS oracle: the reported foreground handle, what resolving it
would yield, and whether the asynchronous POST (lines 135-143) would
eventually succeed. -/
structure OsTick where
  hwnd : Option Nat
  resolved : Option String
  send_ok : Bool
deriving DecidableEq, Repr

/-- One iteration of the `while` body (lines 573-652): either it runs to its
end (`ok`), or an unexpected exception escapes the inner statements and is
caught by the handler at line 646 (`err`).  The statements that can raise
past the inner handlers lie in the dispatch phase (lines 623-641:
`logging.info`, `threading.Thread(...).start()` inside `send_port_async`),
i.e. after the resolution phase and before the `last_sent` update of the
branch taken. -/
inductive LoopTick where
  | ok (t : OsTick)
  | err (t : OsTick)
deriving DecidableEq, Repr

/-- Observable events of one loop iteration. -/
structure TickTrace where
  resolver_called : Bool
  fg : Option String
  dispatched : Option (String × Bool)
  sleep_s : ℚ
deriving DecidableEq, Repr

/-- One iteration of `_watcher_loop` (lines 573-652) over the state
(resolution cache, `last_sent`). -/
def loop_iter (P : Nat → ProfileModel) (st : WatchCache × Option String) :
    LoopTick → (WatchCache × Option String) × TickTrace
  | .ok t =>
      let r := cache_step st.1 t.hwnd t.resolved
      let n := notify_step st.2 (selected_port P r.2.1)
      ((r.1, n.1),
        ⟨r.2.2, r.2.1, n.2.map (send_port_async t.send_ok), CHECK_INTERVAL⟩)
  | .err t =>
      let r := cache_step st.1 t.hwnd t.resolved
      ((r.1, st.2), ⟨r.2.2, r.2.1, none, RECOVERY_SLEEP⟩)

/-- The watcher loop over a finite stop-delimited tick sequence: the
`while not self.watcher_stop_event.is_set()` loop (line 573) processes one
tick per iteration until the stop signal is observed; the returned trace has
one entry per iteration. -/
def loop_run (P : Nat → ProfileModel) (st : WatchCache × Option String) :
    List LoopTick → (WatchCache × Option String) × List TickTrace
  | [] => (st, [])
  | tk :: tks =>
      let s1 := loop_iter P st tk
      let rest := loop_run P s1.1 tks
      (rest.1, s1.2 :: rest.2)

/-- `start_watcher` (lines 543-552) spawns `_watcher_loop`, whose local
`last_sent = None` (line 572); the cache attributes are instance state and
are passed in unchanged. -/
def watcher_session (P : Nat → ProfileModel) (cache : WatchCache)
    (ticks : List LoopTick) : (WatchCache × Option String) × List TickTrace :=
  loop_run P (cache, none) ticks

/-- Codes handed to `send_port_async` during a run, in order. -/
def sent_codes (trs : List TickTrace) : List String :=
  trs.filterMap (fun tr => tr.dispatched.map Prod.fst)

/-- The dispatch phase (lines 623-641) iterated over a sequence of per-tick
selected ports; returns the final `last_sent` and the dispatched codes in
order. -/
def notify_run (last_sent : Option String) :
    List (Option String) → Option String × List String
  | [] => (last_sent, [])
  | sel :: sels =>
      let n := notify_step last_sent sel
      let rest := notify_run n.1 sels
      (rest.1,
        match n.2 with
        | some c => c :: rest.2
        | none => rest.2)

/-- Lines 616-641 iterated over a sequence of per-tick resolved identities
(`fg_exe` values): match, then dispatch. -/
def identity_run (P : Nat → ProfileModel) (last_sent : Option String)
    (fgs : List (Option String)) : Option String × List String :=
  notify_run last_sent (fgs.map (selected_port P))

/-- Base filename: the part of the path after the last `/` or `\`
(`os.path.basename`, line 73, applied to the absolute Windows paths returned
by `proc.exe()`). -/
def basename (p : String) : String :=
  ((p.split fun c => c == '/' || c == '\\').getLast?).getD ""

/-- Possible outcomes of the OS calls inside `safe_get_foreground_process`
(lines 59-77): `raised` is any exception outside the handled cases (for
example `psutil.Process(pid)` raising at line 68, caught by the outer
handler); `noWindow` is a falsy `GetForegroundWindow` result (line 63);
`noPid` is a falsy pid (line 66); `exeDenied` / `exeGone` are
`psutil.AccessDenied` / `psutil.NoSuchProcess` from `proc.exe()` handled at
line 71; `ok path` is a successful resolution. -/
inductive FgEnv where
  | raised
  | noWindow
  | noPid
  | exeDenied
  | exeGone
  | ok (path : String)
deriving DecidableEq, Repr

/-- The body of the outer `try` (lines 61-74); `Except` models exception
flow reaching the outer handler. -/
def fg_body : FgEnv → Except Unit (Option String × Option String)
  | .raised => .error ()
  | .noWindow => .ok (none, none)
  | .noPid => .ok (none, none)
  | .exeDenied => .ok (none, none)
  | .exeGone => .ok (none, none)
  | .ok p => .ok (some (str_lower (basename p)), some p)

/-- Lines 59-77: the outer `except Exception` (lines 75-77) turns any
escaped exception into `(None, None)`, so the function is total for its
caller. -/
def safe_get_foreground_process (e : FgEnv) : Option String × Option String :=
  match fg_body e with
  | .ok r => r
  | .error _ => (none, none)

/-- The profile table of the specification's worked example: slot 1 mapped
to `game.exe`, slot 2 to `editor.exe`, slots 3 and 4 empty. -/
def demoProfiles : Nat → ProfileModel := fun i =>
  if i = 1 then ⟨some "game.exe", some "gamepath"⟩
  else if i = 2 then ⟨some "editor.exe", some "editorpath"⟩
  else ⟨none, none⟩

/-! Shared helper lemmas. -/

/-- The two dispatch branches (lines 623-641) collapse to one comparison
against the computed code `sel.getD FALLBACK_PORT`. -/
lemma notify_step_eq (last_sent sel : Option String) :
    notify_step last_sent sel =
      if last_sent ≠ some (sel.getD FALLBACK_PORT) then
        (some (sel.getD FALLBACK_PORT), some (sel.getD FALLBACK_PORT))
      else (last_sent, none) := by
  cases sel <;> rfl

lemma notify_run_destutter_aux (sels : List (Option String)) :
    ∀ a : String,
      (sels.map fun s => s.getD FALLBACK_PORT).destutter' (· ≠ ·) a
        = a :: (notify_run (some a) sels).2 := by
  induction sels with
  | nil => intro a; simp [notify_run, List.destutter'_nil]
  | cons sel sels ih =>
      intro a
      by_cases h : a = sel.getD FALLBACK_PORT
      · have hn : notify_step (some a) sel = (some a, none) := by
          rw [notify_step_eq, if_neg (by simp [h])]
        have hrun : (notify_run (some a) (sel :: sels)).2
            = (notify_run (some a) sels).2 := by
          simp [notify_run, hn]
        rw [List.map_cons, List.destutter'_cons,
          if_neg (by simp [h] : ¬(a ≠ sel.getD FALLBACK_PORT)), hrun]
        exact ih a
      · have hn : notify_step (some a) sel
            = (some (sel.getD FALLBACK_PORT), some (sel.getD FALLBACK_PORT)) := by
          rw [notify_step_eq, if_pos (by simp [h])]
        have hrun : (notify_run (some a) (sel :: sels)).2
            = sel.getD FALLBACK_PORT
              :: (notify_run (some (sel.getD FALLBACK_PORT)) sels).2 := by
          simp [notify_run, hn]
        rw [List.map_cons, List.destutter'_cons, if_pos h, hrun, ih]

lemma notify_run_destutter (sels : List (Option String)) :
    (notify_run none sels).2
      = (sels.map fun s => s.getD FALLBACK_PORT).destutter (· ≠ ·) := by
  cases sels with
  | nil => rfl
  | cons sel sels =>
      have hn : notify_step none sel
          = (some (sel.getD FALLBACK_PORT), some (sel.getD FALLBACK_PORT)) := by
        rw [notify_step_eq, if_pos (by simp)]
      have hrun : (notify_run none (sel :: sels)).2
          = sel.getD FALLBACK_PORT
            :: (notify_run (some (sel.getD FALLBACK_PORT)) sels).2 := by
        simp [notify_run, hn]
      rw [hrun, List.map_cons, List.destutter_cons', notify_run_destutter_aux]

/-- Characterisation of the slot scan (lines 617-621) as a least-slot
search over the dict order 1, 2, 3, 4. -/
lemma match_slot_eq_some_iff (P : Nat → ProfileModel) (s : String) (i : Nat) :
    match_slot P s = some i ↔
      (i ∈ ([1, 2, 3, 4] : List Nat) ∧ slot_matches P i s = true ∧
        ∀ j ∈ ([1, 2, 3, 4] : List Nat), j < i → slot_matches P j s = false) := by
  unfold match_slot
  split_ifs with h1 h2 h3 h4
  · simp only [Option.some.injEq]
    constructor
    · rintro rfl
      refine ⟨by norm_num, h1, ?_⟩
      intro j hj hji
      simp only [List.mem_cons, List.not_mem_nil, or_false] at hj
      omega
    · rintro ⟨hi, hmi, hlt⟩
      simp only [List.mem_cons, List.not_mem_nil, or_false] at hi
      rcases hi with rfl | rfl | rfl | rfl
      · rfl
      · have := hlt 1 (by norm_num) (by norm_num); rw [this] at h1; cases h1
      · have := hlt 1 (by norm_num) (by norm_num); rw [this] at h1; cases h1
      · have := hlt 1 (by norm_num) (by norm_num); rw [this] at h1; cases h1
  · simp only [Bool.not_eq_true] at h1
    simp only [Option.some.injEq]
    constructor
    · rintro rfl
      refine ⟨by norm_num, h2, ?_⟩
      intro j hj hji
      simp only [List.mem_cons, List.not_mem_nil, or_false] at hj
      have : j = 1 := by omega
      rw [this]; exact h1
    · rintro ⟨hi, hmi, hlt⟩
      simp only [List.mem_cons, List.not_mem_nil, or_false] at hi
      rcases hi with rfl | rfl | rfl | rfl
      · rw [hmi] at h1; cases h1
      · rfl
      · have := hlt 2 (by norm_num) (by norm_num); rw [this] at h2; cases h2
      · have := hlt 2 (by norm_num) (by norm_num); rw [this] at h2; cases h2
  · simp only [Bool.not_eq_true] at h1 h2
    simp only [Option.some.injEq]
    constructor
    · rintro rfl
      refine ⟨by norm_num, h3, ?_⟩
      intro j hj hji
      simp only [List.mem_cons, List.not_mem_nil, or_false] at hj
      have : j = 1 ∨ j = 2 := by omega
      rcases this with rfl | rfl
      · exact h1
      · exact h2
    · rintro ⟨hi, hmi, hlt⟩
      simp only [List.mem_cons, List.not_mem_nil, or_false] at hi
      rcases hi with rfl | rfl | rfl | rfl
      · rw [hmi] at h1; cases h1
      · rw [hmi] at h2; cases h2
      · rfl
      · have := hlt 3 (by norm_num) (by norm_num); rw [this] at h3; cases h3
  · simp only [Bool.not_eq_true] at h1 h2 h3
    simp only [Option.some.injEq]
    constructor
    · rintro rfl
      refine ⟨by norm_num, h4, ?_⟩
      intro j hj hji
      simp only [List.mem_cons, List.not_mem_nil, or_false] at hj
      have : j = 1 ∨ j = 2 ∨ j = 3 := by omega
      rcases this with rfl | rfl | rfl
      · exact h1
      · exact h2
      · exact h3
    · rintro ⟨hi, hmi, hlt⟩
      simp only [List.mem_cons, List.not_mem_nil, or_false] at hi
      rcases hi with rfl | rfl | rfl | rfl
      · rw [hmi] at h1; cases h1
      · rw [hmi] at h2; cases h2
      · rw [hmi] at h3; cases h3
      · rfl
  · simp only [Bool.not_eq_true] at h1 h2 h3 h4
    constructor
    · rintro h; cases h
    · rintro ⟨hi, hmi, hlt⟩
      simp only [List.mem_cons, List.not_mem_nil, or_false] at hi
      rcases hi with rfl | rfl | rfl | rfl
      · rw [hmi] at h1; cases h1
      · rw [hmi] at h2; cases h2
      · rw [hmi] at h3; cases h3
      · rw [hmi] at h4; cases h4

lemma loop_run_length (P : Nat → ProfileModel) (st : WatchCache × Option String)
    (ticks : List LoopTick) : ((loop_run P st ticks).2).length = ticks.length := by
  induction ticks generalizing st with
  | nil => rfl
  | cons t ts ih => simp [loop_run, ih]

/-! Claim theorems. -/

/-- C1: Debounce of notifications.  A dispatch happens on a tick iff the
tick's computed code (`sel.getD FALLBACK_PORT`) differs from the stored
`last_sent`; the dispatched code is exactly the computed code; after the
tick, `last_sent` equals the computed code unconditionally; over any
sequence of ticks starting from an unset `last_sent`, the dispatched codes
are exactly one per maximal run of identical consecutive computed codes, at
the run's first element (`destutter`); and the loop state is independent of
whether the asynchronous send succeeds. -/
theorem debounce_spec :
    (∀ last_sent sel, ((notify_step last_sent sel).2 ≠ none ↔
        last_sent ≠ some (sel.getD FALLBACK_PORT)))
    ∧ (∀ last_sent sel, (notify_step last_sent sel).2 =
        if last_sent ≠ some (sel.getD FALLBACK_PORT) then
          some (sel.getD FALLBACK_PORT)
        else none)
    ∧ (∀ last_sent sel,
        (notify_step last_sent sel).1 = some (sel.getD FALLBACK_PORT))
    ∧ (∀ sels, (notify_run none sels).2 =
        (sels.map fun s => s.getD FALLBACK_PORT).destutter (· ≠ ·))
    ∧ (∀ (P : Nat → ProfileModel) (st : WatchCache × Option String)
          (t : OsTick) (b b' : Bool),
        (loop_iter P st (.ok { t with send_ok := b })).1
          = (loop_iter P st (.ok { t with send_ok := b' })).1) := by
  refine ⟨?_, ?_, ?_, notify_run_destutter, ?_⟩
  · intro last_sent sel
    rw [notify_step_eq]
    split_ifs with h <;> simp [h]
  · intro last_sent sel
    rw [notify_step_eq]
    split_ifs <;> rfl
  · intro last_sent sel
    rw [notify_step_eq]
    split_ifs with h
    · rfl
    · simpa using h
  · intro P st t b b'
    rfl

/-- C1 witness: a concrete code sequence with two maximal runs of `2s` and
one of the fallback, dispatched once per run. -/
theorem debounce_spec_witness :
    (notify_run none [some "2s", some "2s", none, none, some "2s"]).2
      = ["2s", "1s", "2s"] := by
  rw [debounce_spec.2.2.2.1]
  decide

/-- C2: Resolution-cache correctness.  A tick whose non-null handle equals
the cached handle is a hit: the cached identity is returned, the cache is
unchanged and the resolver is not invoked; a differing non-null handle is a
miss: the pair (handle, result) is stored regardless of whether resolution
succeeded and the resolver is invoked; a null handle clears the cache and
yields NotFound; and the resolver runs exactly when a non-null handle
differs from the cached one. -/
theorem cache_spec :
    (∀ st h r, st.last_hwnd = some h →
        cache_step st (some h) r = (st, st.last_fg_exe, false))
    ∧ (∀ st h r, st.last_hwnd ≠ some h →
        cache_step st (some h) r = (⟨some h, r⟩, r, true))
    ∧ (∀ st r, cache_step st none r = (⟨none, none⟩, none, false))
    ∧ (∀ st hw r, ((cache_step st hw r).2.2 = true ↔
        ∃ h, hw = some h ∧ st.last_hwnd ≠ some h)) := by
  refine ⟨?_, ?_, ?_, ?_⟩
  · intro st h r hc
    simp [cache_step, hc]
  · intro st h r hc
    simp [cache_step, hc]
  · intro st r
    rfl
  · intro st hw r
    cases hw with
    | none => simp [cache_step]
    | some h =>
        by_cases hc : st.last_hwnd = some h
        · simp [cache_step, hc]
        · simp [cache_step, hc]

/-- C2 witness: a concrete hit and a concrete failed-resolution miss. -/
theorem cache_spec_witness :
    cache_step ⟨some 5, some "a"⟩ (some 5) (some "b")
        = (⟨some 5, some "a"⟩, some "a", false)
    ∧ cache_step ⟨some 5, some "a"⟩ (some 6) none
        = (⟨some 6, none⟩, none, true) :=
  ⟨cache_spec.1 ⟨some 5, some "a"⟩ 5 (some "b") rfl,
   cache_spec.2.1 ⟨some 5, some "a"⟩ 6 none (by decide)⟩

/-- C3 counterexample: the resolution cache is NOT reset by a restart.  A
first session leaves the cache holding (handle 7, `game.exe`); a restarted
session whose first tick reports the same handle 7 does not invoke the
resolver, reuses the pre-stop identity and dispatches `2s`, whereas a
session started with an empty cache (what the claim asserts) invokes the
resolver, resolves `other.exe` fresh and dispatches `1s`. -/
theorem restart_cache_counterexample :
    ((watcher_session demoProfiles ⟨none, none⟩
        [.ok ⟨some 7, some "game.exe", true⟩]).1.1
      = ⟨some 7, some "game.exe"⟩)
    ∧ ((watcher_session demoProfiles ⟨some 7, some "game.exe"⟩
        [.ok ⟨some 7, some "other.exe", true⟩]).2.map TickTrace.resolver_called
      = [false])
    ∧ (sent_codes (watcher_session demoProfiles ⟨some 7, some "game.exe"⟩
        [.ok ⟨some 7, some "other.exe", true⟩]).2 = ["2s"])
    ∧ ((watcher_session demoProfiles ⟨none, none⟩
        [.ok ⟨some 7, some "other.exe", true⟩]).2.map TickTrace.resolver_called
      = [true])
    ∧ (sent_codes (watcher_session demoProfiles ⟨none, none⟩
        [.ok ⟨some 7, some "other.exe", true⟩]).2 = ["1s"])
    ∧ (("2s" : String) ≠ "1s") := by
  refine ⟨?_, ?_, ?_, ?_, ?_, ?_⟩ <;> decide

/-- C3 (amended): restarting the watcher resets only the notification
state: `last_sent` starts unset, so the first tick of any session always
dispatches its computed code (even if it equals the code sent just before
stopping), and the dispatched code becomes the new `last_sent`; but the
resolution cache persists across restarts: a first tick whose handle equals
the cached handle does not invoke the resolver, reuses the cached identity
and leaves the cache unchanged. -/
theorem restart_behavior :
    (∀ P cache t, ∃ c,
        (loop_iter P (cache, none) (.ok t)).2.dispatched = some (c, t.send_ok)
        ∧ (loop_iter P (cache, none) (.ok t)).1.2 = some c)
    ∧ (∀ P cache h r b, cache.last_hwnd = some h →
        (loop_iter P (cache, none) (.ok ⟨some h, r, b⟩)).2.resolver_called = false
        ∧ (loop_iter P (cache, none) (.ok ⟨some h, r, b⟩)).2.fg
            = cache.last_fg_exe
        ∧ (loop_iter P (cache, none) (.ok ⟨some h, r, b⟩)).1.1 = cache) := by
  constructor
  · intro P cache t
    refine ⟨(selected_port P (cache_step cache t.hwnd t.resolved).2.1).getD
      FALLBACK_PORT, ?_, ?_⟩ <;>
    · have hn := notify_step_eq none
        (selected_port P (cache_step cache t.hwnd t.resolved).2.1)
      rw [if_pos (by simp)] at hn
      simp [loop_iter, hn, send_port_async]
  · intro P cache h r b hc
    refine ⟨?_, ?_, ?_⟩ <;> simp [loop_iter, cache_step, hc]

/-- C3 witness: a concrete restart whose first tick reuses the cache. -/
theorem restart_behavior_witness :
    (loop_iter demoProfiles (⟨some 3, some "x"⟩, none)
        (.ok ⟨some 3, some "y", true⟩)).2.resolver_called = false :=
  (restart_behavior.2 demoProfiles ⟨some 3, some "x"⟩ 3 (some "y") true rfl).1

/-- C4: Matching priority.  `match_slot` returns `some i` exactly when slot
`i` is in the dict order 1, 2, 3, 4, its assignment matches the name, and no
lower slot matches; in particular, when two slots are assigned the same
name, the higher one is never returned, on every tick and independently of
assignment order (the table is a pure value). -/
theorem match_priority :
    (∀ (P : Nat → ProfileModel) (s : String) (i : Nat),
        match_slot P s = some i ↔
          (i ∈ ([1, 2, 3, 4] : List Nat) ∧ slot_matches P i s = true ∧
            ∀ j ∈ ([1, 2, 3, 4] : List Nat), j < i →
              slot_matches P j s = false))
    ∧ (∀ (P : Nat → ProfileModel) (s : String) (i j : Nat),
        i ∈ ([1, 2, 3, 4] : List Nat) → j ∈ ([1, 2, 3, 4] : List Nat) →
        i < j → slot_matches P i s = true → match_slot P s ≠ some j) := by
  refine ⟨match_slot_eq_some_iff, ?_⟩
  intro P s i j hi hj hij hm hcontra
  obtain ⟨-, -, hlt⟩ := (match_slot_eq_some_iff P s j).1 hcontra
  have hfalse := hlt i hi hij
  rw [hfalse] at hm
  cases hm

/-- A table with slots 2 and 4 assigned to the same executable name. -/
def dupProfiles : Nat → ProfileModel := fun i =>
  if i = 2 ∨ i = 4 then ⟨some "app.exe", some "apppath"⟩ else ⟨none, none⟩

/-- C4 witness: with the duplicate assignment, the scan never yields slot 4
and yields the lower slot 2. -/
theorem match_priority_witness :
    match_slot dupProfiles "app.exe" ≠ some 4
    ∧ match_slot dupProfiles "app.exe" = some 2 :=
  ⟨match_priority.2 dupProfiles "app.exe" 2 4 (by decide) (by decide)
      (by decide) (by decide),
   (match_priority.1 dupProfiles "app.exe" 2).2
      ⟨by decide, by decide, by decide⟩⟩

/-- C5: Code mapping and fallback totality.  The slot codes are the fixed
constants 1 to `2s`, 2 to `3s`, 3 to `4s`, 4 to `5s`; a NotFound identity
selects no slot; on every tick where no slot is selected, the loop's
notification state afterwards holds the fallback code `1s` and the only
possible dispatch is the fallback code (never absent); and the fallback
code is none of the four slot codes. -/
theorem fallback_code_spec :
    (PROFILE_PORTS 1 = some "2s" ∧ PROFILE_PORTS 2 = some "3s" ∧
      PROFILE_PORTS 3 = some "4s" ∧ PROFILE_PORTS 4 = some "5s")
    ∧ (∀ P, selected_port P none = none)
    ∧ (∀ P fg last_sent, selected_port P fg = none →
        (notify_step last_sent (selected_port P fg)).1 = some FALLBACK_PORT
        ∧ ((notify_step last_sent (selected_port P fg)).2 = none ∨
            (notify_step last_sent (selected_port P fg)).2
              = some FALLBACK_PORT))
    ∧ FALLBACK_PORT ∉ (["2s", "3s", "4s", "5s"] : List String) := by
  refine ⟨⟨rfl, rfl, rfl, rfl⟩, ?_, ?_, by decide⟩
  · intro P; rfl
  · intro P fg last_sent h
    rw [h]
    constructor
    · rw [notify_step_eq]
      split_ifs with hl
      · rfl
      · simpa using hl
    · rw [notify_step_eq]
      split_ifs
      · right; rfl
      · left; rfl

/-- C5 witness: an unmatched identity leaves the fallback code stored. -/
theorem fallback_code_spec_witness :
    (notify_step (some "3s")
        (selected_port demoProfiles (some "unknown.exe"))).1
      = some FALLBACK_PORT :=
  (fallback_code_spec.2.2.1 demoProfiles (some "unknown.exe") (some "3s")
    (by decide)).1

/-- C6: End-to-end worked example.  With slot 1 mapped to `game.exe` and
slot 2 to `editor.exe`, the identity sequence NotFound, `game.exe`,
`game.exe`, `editor.exe`, `unknown.exe` dispatches exactly `1s`, `2s`,
`3s`, `1s`, with no dispatch on the repeated `game.exe` tick. -/
theorem demo_run_dispatches :
    (identity_run demoProfiles none
      [none, some "game.exe", some "game.exe", some "editor.exe",
        some "unknown.exe"]).2 = ["1s", "2s", "3s", "1s"] := by decide

/-- C7 counterexample: an iteration aborted by an unexpected error is not
equivalent to a NotFound tick.  After `game.exe` was active (code `2s`
sent), an iteration whose dispatch phase raises (caught at line 646)
dispatches nothing and leaves `last_sent` at `2s`, whereas the same run
with the second tick resolving to NotFound dispatches the fallback `1s`. -/
theorem error_skip_counterexample :
    (sent_codes (loop_run demoProfiles (⟨none, none⟩, none)
        [.ok ⟨some 1, some "game.exe", true⟩,
          .err ⟨some 2, some "game.exe", true⟩]).2 = ["2s"])
    ∧ (sent_codes (loop_run demoProfiles (⟨none, none⟩, none)
        [.ok ⟨some 1, some "game.exe", true⟩,
          .ok ⟨some 2, none, true⟩]).2 = ["2s", "1s"])
    ∧ ((["2s"] : List String) ≠ ["2s", "1s"]) := by
  refine ⟨?_, ?_, ?_⟩ <;> decide

/-- C7 (amended): iteration-failure isolation.  The loop processes every
tick of the stop-delimited sequence, so no iteration error terminates it;
an errored iteration dispatches nothing and leaves the notification state
unchanged (it is not treated as a NotFound tick, which would run the
fallback dispatch), and is followed by the 0.5 s recovery sleep, longer
than the fixed 0.25 s cadence of normal iterations. -/
theorem error_isolation :
    (∀ P st ticks, ((loop_run P st ticks).2).length = ticks.length)
    ∧ (∀ P st t,
        (loop_iter P st (.err t)).1.2 = st.2
        ∧ (loop_iter P st (.err t)).2.dispatched = none
        ∧ (loop_iter P st (.err t)).2.sleep_s = RECOVERY_SLEEP)
    ∧ (∀ P st t, (loop_iter P st (.ok t)).2.sleep_s = CHECK_INTERVAL)
    ∧ CHECK_INTERVAL < RECOVERY_SLEEP := by
  refine ⟨loop_run_length, ?_, ?_, ?_⟩
  · intro P st t
    exact ⟨rfl, rfl, rfl⟩
  · intro P st t
    rfl
  · norm_num [CHECK_INTERVAL, RECOVERY_SLEEP]

/-- C8: Name-only identity equality.  Matching reads only the (lowercase)
`exe_name` fields: any two profile tables whose slots agree on names and on
path truthiness (so the same slots count as assigned) produce the same
selected port for every resolved identity — the stored paths are never used
in matching. -/
theorem path_independent_matching :
    ∀ (P Q : Nat → ProfileModel),
      (∀ i, (P i).exe_name = (Q i).exe_name) →
      (∀ i, truthy (P i).exe_path = truthy (Q i).exe_path) →
      ∀ fg, selected_port P fg = selected_port Q fg := by
  intro P Q hn hp fg
  have hm : ∀ i s, slot_matches P i s = slot_matches Q i s := by
    intro i s
    simp [slot_matches, ProfileModel.is_assigned, hn i, hp i]
  cases fg with
  | none => rfl
  | some s =>
      by_cases hs : s = ""
      · simp [selected_port, hs]
      · simp [selected_port, hs, match_slot, hm]

/-- C8 witness: two tables identical except for the stored path of the
assigned slot match the same identity to the same port. -/
theorem path_independent_matching_witness :
    selected_port
        (fun i => if i = 1 then ⟨some "game.exe", some "pathA"⟩
          else ⟨none, none⟩) (some "game.exe")
      = selected_port
        (fun i => if i = 1 then ⟨some "game.exe", some "pathB"⟩
          else ⟨none, none⟩) (some "game.exe") :=
  path_independent_matching _ _
    (by intro i; by_cases h : i = 1 <;> simp [h])
    (by intro i; by_cases h : i = 1 <;> simp [h, truthy])
    (some "game.exe")

/-- C9: Resolver total failure handling.  `safe_get_foreground_process`
is total for its caller: a raising win32/psutil call, a falsy handle, a
falsy pid, an `AccessDenied` and a `NoSuchProcess` each yield the NotFound
pair (None, None); a successful resolution yields the lowercased base
filename together with the full path; and every outcome is one of those
two shapes. -/
theorem resolver_totality :
    (safe_get_foreground_process .raised = (none, none))
    ∧ (safe_get_foreground_process .noWindow = (none, none))
    ∧ (safe_get_foreground_process .noPid = (none, none))
    ∧ (safe_get_foreground_process .exeDenied = (none, none))
    ∧ (safe_get_foreground_process .exeGone = (none, none))
    ∧ (∀ p, safe_get_foreground_process (.ok p)
        = (some (str_lower (basename p)), some p))
    ∧ (∀ e, safe_get_foreground_process e = (none, none) ∨
        ∃ p, e = FgEnv.ok p ∧ safe_get_foreground_process e
          = (some (str_lower (basename p)), some p)) := by
  refine ⟨rfl, rfl, rfl, rfl, rfl, fun p => rfl, ?_⟩
  intro e
  cases e with
  | ok p => exact Or.inr ⟨p, rfl, rfl⟩
  | raised => exact Or.inl rfl
  | noWindow => exact Or.inl rfl
  | noPid => exact Or.inl rfl
  | exeDenied => exact Or.inl rfl
  | exeGone => exact Or.inl rfl

/-- C10: Assignment name normalization.  `assign` stores the lowercased
name for a non-empty name string, stores `None` for a `None` or empty name
(while still storing the path), which leaves the slot unassigned; and an
unassigned slot is never returned by the match scan. -/
theorem assign_normalization :
    (∀ p path s, s ≠ "" →
        (ProfileModel.assign p (some s) path).exe_name = some (str_lower s))
    ∧ (∀ p path, (ProfileModel.assign p none path).exe_name = none)
    ∧ (∀ p path, (ProfileModel.assign p (some "") path).exe_name = none)
    ∧ (∀ p name path, (ProfileModel.assign p name path).exe_path = path)
    ∧ (∀ p path,
        (ProfileModel.assign p none path).is_assigned = false
        ∧ (ProfileModel.assign p (some "") path).is_assigned = false)
    ∧ (∀ (P : Nat → ProfileModel) (i : Nat) (s : String),
        (P i).is_assigned = false → match_slot P s ≠ some i) := by
  refine ⟨?_, ?_, ?_, ?_, ?_, ?_⟩
  · intro p path s hs
    simp [ProfileModel.assign, hs]
  · intro p path
    rfl
  · intro p path
    rfl
  · intro p name path
    rfl
  · intro p path
    exact ⟨rfl, rfl⟩
  · intro P i s hP hcontra
    obtain ⟨-, hm, -⟩ := (match_slot_eq_some_iff P s i).1 hcontra
    simp only [slot_matches, Bool.and_eq_true] at hm
    simp [hP] at hm

/-- C10 witness: a mixed-case assignment is stored lowercased. -/
theorem assign_normalization_witness :
    (ProfileModel.assign ⟨none, none⟩ (some "App.EXE") (some "p")).exe_name
      = some "app.exe" := by
  have h := assign_normalization.1 ⟨none, none⟩ (some "p") "App.EXE"
    (by decide)
  rw [h]
  decide

end AutoProfile
